import Mathlib

/-!
Verification of the command-dispatch engine in `voice.py` (module-level
registry, `MatchAndPerformMixin.is_match` / `perform_action`,
`VoiceCommandMixin` history recording, serialization and replay).

Modelling conventions:
* Python strings are Lean `String`s; character lists (`String.data`) drive
  the recursive definitions.
* The module registry `_action_registry` is a Python `dict` keyed by the
  pattern string.  Python 3.7+ dicts iterate in insertion order, updating an
  existing key in place and appending a fresh key at the end; `dictInsert`
  below implements exactly that on an association list, and `dictLookup`
  implements `d[k]` (`none` models a raised `KeyError`).
* A Python handler bound in the registry is modelled as a function from its
  keyword arguments to `Except String String`: `Except.error` models a
  raised exception (for these handlers, a `TypeError` from a keyword-argument
  mismatch), `Except.ok` the returned string.  `perform_action`'s call
  `action(self)` passes no keyword arguments, hence `action []`;
  `load_and_replay_history`'s call `action(self, **command["args"])` passes
  the saved arguments.
* `re.search(pattern, command)` is only reached on the `SUBSTRING` branch of
  `is_match`; every `SUBSTRING` pattern in this repository is literal text
  with no regex metacharacter, for which `re.search` is exactly substring
  containment, and `reSearch` is defined accordingly.  The `DYNAMIC` branch
  of the source never compiles its pattern at all.
* `datetime.datetime` values are carried opaquely as the text they serialize
  to (`default=str` in `save_history`); no claim inspects timestamps.
* `json.dump` / `json.load` on a list of records whose fields are strings and
  string-to-string mappings is lossless, so the file contents are modelled as
  the record list itself (`List SavedRecord`).
-/

deriving instance DecidableEq for Except

/-- The five members of the Python `MatchType` enum. -/
inductive MatchType where
  | ALL_KEYWORDS
  | DYNAMIC
  | STARTS_WITH
  | STATIC
  | SUBSTRING
deriving DecidableEq, BEq

/-- Does the first character list lead (start) the second?  Python
`b.startswith(a)` at character-list level. -/
def leadMatch : List Char → List Char → Bool
  | [], _ => true
  | _ :: _, [] => false
  | a :: as, b :: bs => a == b && leadMatch as bs

/-- Does the first character list occur contiguously inside the second?
Python `a in b` at character-list level. -/
def subMatch (p : List Char) : List Char → Bool
  | [] => leadMatch p []
  | b :: bs => leadMatch p (b :: bs) || subMatch p bs

/-- Python `needle in haystack` on strings (substring containment). -/
def strIn (needle haystack : String) : Bool :=
  subMatch needle.data haystack.data

/-- Python `s.startswith(p)`. -/
def startswith (s p : String) : Bool :=
  leadMatch p.data s.data

/-- Python `re.search(pattern, command)` truthiness, for the metacharacter-free
patterns this repository registers under `SUBSTRING` (for literal text,
`re.search` succeeds exactly when the text occurs as a substring). -/
def reSearch (pattern command : String) : Bool :=
  strIn pattern command

/-- The whitespace characters recognized by Python `str.split()` (ASCII range;
the registered patterns only contain plain spaces). -/
def pyIsSpace (c : Char) : Bool :=
  c == ' ' || c == '\t' || c == '\n' || c == '\r' || c == '\x0b' || c == '\x0c'

/-- Worker for `pySplit`: accumulates the current word reversed. -/
def splitWsAux : List Char → List Char → List (List Char)
  | [], acc => if acc.isEmpty then [] else [acc.reverse]
  | c :: rest, acc =>
    if pyIsSpace c then
      if acc.isEmpty then splitWsAux rest [] else acc.reverse :: splitWsAux rest []
    else
      splitWsAux rest (c :: acc)

/-- Python `pattern.split()`: split on whitespace runs, no empty words. -/
def pySplit (s : String) : List String :=
  (splitWsAux s.data []).map fun cs => String.mk cs

/-- A Python handler as stored in the registry: keyword arguments to either a
raised exception (`Except.error`) or the returned string (`Except.ok`). -/
abbrev PyFunc := List (String × String) → Except String String

/-- The registry type: a Python dict from pattern to `(func, match_type)`,
modelled as an insertion-ordered association list. -/
abbrev Registry := List (String × (PyFunc × MatchType))

/-- Python dict assignment `d[k] = v`: update an existing key in place
(keeping its position), append a fresh key at the end. -/
def dictInsert (k : String) (v : α) : List (String × α) → List (String × α)
  | [] => [(k, v)]
  | (k0, v0) :: rest =>
    if k0 = k then (k, v) :: rest else (k0, v0) :: dictInsert k v rest

/-- Python dict subscript `d[k]`: first (unique) binding, `none` models the
raised `KeyError`. -/
def dictLookup (d : List (String × α)) (k : String) : Option α :=
  match d with
  | [] => none
  | (k0, v0) :: rest => if k0 = k then some v0 else dictLookup rest k

/-- `register_action(pattern, match_type)` applied to `func`: stores
`_action_registry[pattern] = (func, match_type)`. -/
def register_action (pattern : String) (match_type : MatchType) (func : PyFunc)
    (registry : Registry) : Registry :=
  dictInsert pattern (func, match_type) registry

/-- `MatchAndPerformMixin.is_match(command, pattern, match_type)`, branch for
branch: `SUBSTRING` uses `re.search`, `ALL_KEYWORDS` checks
`all(word in command for word in pattern.split())`, `STARTS_WITH` uses
`command.startswith(pattern)`, and everything else — `DYNAMIC` and `STATIC`
included — falls through to `return False`. -/
def is_match (command pattern : String) (match_type : MatchType) : Bool :=
  if match_type == MatchType.SUBSTRING && reSearch pattern command then
    true
  else if match_type == MatchType.ALL_KEYWORDS then
    (pySplit pattern).all fun word => strIn word command
  else if match_type == MatchType.STARTS_WITH && startswith command pattern then
    true
  else
    false

/-- `MatchAndPerformMixin.perform_action(self, command)`: walk the registry in
iteration (= registration) order, return `action(self)` for the first entry
whose matcher succeeds, else the sentinel.  The method reads
`self.action_registry` only and never touches `self.history`. -/
def perform_action (registry : Registry) (command : String) :
    Except String String :=
  match registry with
  | [] => Except.ok "Command not recognized"
  | (pattern, (action, match_type)) :: rest =>
    if is_match command pattern match_type then action []
    else perform_action rest command

/-- The dataclass `CommandHistory(action, timestamp, args)`; the timestamp is
carried as the text it serializes to. -/
structure CommandHistory where
  action : String
  timestamp : String
  args : List (String × String)
deriving DecidableEq

/-- `VoiceCommandMixin.add_to_history(self, action, args)`: append one record
(the wall-clock timestamp is an input here). -/
def add_to_history (history : List CommandHistory) (action : String)
    (timestamp : String) (args : List (String × String)) :
    List CommandHistory :=
  history ++ [{ action := action, timestamp := timestamp, args := args }]

/-- One record of the durable file written by `save_history`: the `asdict`
image of a `CommandHistory`. -/
structure SavedRecord where
  action : String
  timestamp : String
  args : List (String × String)
deriving DecidableEq

/-- `VoiceCommandMixin.save_history(self, filename)`: `json.dump` of
`asdict(command)` for each history record, in order.  The JSON text
round-trips these string-valued records unchanged, so the file contents are
modelled as the record list itself. -/
def save_history (history : List CommandHistory) : List SavedRecord :=
  history.map fun c => { action := c.action, timestamp := c.timestamp, args := c.args }

/-- One call made during replay: the action key looked up, the keyword
arguments passed, and the call's outcome. -/
abbrev ReplayCall := String × List (String × String) × Except String String

/-- `VoiceCommandMixin.load_and_replay_history(self, filename)`: for each saved
record in file order, `self.action_registry[command["action"]][0]` (a missing
key raises `KeyError`, aborting the loop with no further calls) then
`action(self, **command["args"])` (a raised exception likewise aborts, after
that call was made).  Result: the calls made, and `some e` when the loop was
aborted by exception `e`. -/
def load_and_replay_history (registry : Registry) :
    List SavedRecord → List ReplayCall × Option String
  | [] => ([], none)
  | cmd :: rest =>
    match dictLookup registry cmd.action with
    | none => ([], some ("KeyError: " ++ cmd.action))
    | some pair =>
      match pair.1 cmd.args with
      | Except.error e => ([(cmd.action, cmd.args, Except.error e)], some e)
      | Except.ok r =>
        ((cmd.action, cmd.args, Except.ok r) ::
            (load_and_replay_history registry rest).1,
          (load_and_replay_history registry rest).2)

/-- `TestControl.turn_on_light(self)`: returns the fixed string; any keyword
argument raises `TypeError`. -/
def turn_on_light : PyFunc := fun kwargs =>
  if kwargs.isEmpty then Except.ok "Turning on the light"
  else Except.error "TypeError: turn_on_light() got an unexpected keyword argument"

/-- `TestControl.play_music(self)`: returns the fixed string; any keyword
argument raises `TypeError`. -/
def play_music : PyFunc := fun kwargs =>
  if kwargs.isEmpty then Except.ok "Playing music"
  else Except.error "TypeError: play_music() got an unexpected keyword argument"

/-- `PaintAppControl.make_rectangle(self, width, height, position)`: requires
exactly the keyword arguments `width`, `height`, `position` (missing or
unexpected ones raise `TypeError`) and returns the f-string
`"Making rectangle of width {width}, height {height} at {position}"`. -/
def make_rectangle : PyFunc := fun kwargs =>
  match dictLookup kwargs "width", dictLookup kwargs "height",
      dictLookup kwargs "position" with
  | some width, some height, some position =>
    if kwargs.all fun kv =>
        kv.1 == "width" || kv.1 == "height" || kv.1 == "position" then
      Except.ok ("Making rectangle of width " ++ width ++ ", height " ++ height
        ++ " at " ++ position)
    else
      Except.error "TypeError: make_rectangle() got an unexpected keyword argument"
  | _, _, _ =>
    Except.error "TypeError: make_rectangle() missing required positional arguments"

/-- The regex string registered for `make_rectangle`. -/
def rect_pattern : String :=
  "make rectangle of width (?P<width>\\d+) and height (?P<height>\\d+) with top left corner at (?P<position>.+)"

/-- The module-level dict `_action_registry` after the decorators run in
source order: `turn_on_light`, then `play_music`, then `make_rectangle`. -/
def _action_registry : Registry :=
  register_action rect_pattern MatchType.DYNAMIC make_rectangle
    (register_action "play music" MatchType.STARTS_WITH play_music
      (register_action "turn on the light" MatchType.SUBSTRING turn_on_light []))

/-- The per-instance state set up by `VoiceCommandMixin.__init__`. -/
structure VoiceInstance where
  action_registry : Registry
  history : List CommandHistory

/-- `VoiceCommandMixin.__init__(self)`: `self.action_registry` is bound to the
module-level `_action_registry` object and `self.history` to a fresh list. -/
def VoiceCommandMixin.init : VoiceInstance :=
  { action_registry := _action_registry, history := [] }

/-- Constructing a `TestControl()`: the inherited `__init__` runs. -/
def TestControl.new : VoiceInstance := VoiceCommandMixin.init

/-- Constructing a `PaintAppControl()`: the inherited `__init__` runs. -/
def PaintAppControl.new : VoiceInstance := VoiceCommandMixin.init

/-- `perform_action` as the bound method of an instance: it reads
`self.action_registry` and assigns to no attribute, so the instance state it
leaves behind is the one it was given. -/
def performActionMethod (self : VoiceInstance) (command : String) :
    Except String String × VoiceInstance :=
  (perform_action self.action_registry command, self)

/-- The Dynamic round-trip candidate from the spec. -/
def rect_candidate : String :=
  "make rectangle of width 10 and height 20 with top left corner at 0,0"

/-- A handler registered first in the precedence example, returning a string
of its own. -/
def handlerA : PyFunc := fun _ => Except.ok "handler A"

/-- A handler registered second in the precedence example, returning a string
distinct from `handlerA`'s. -/
def handlerB : PyFunc := fun _ => Except.ok "handler B"

/-- The precedence example registry: `(A, Substring, "turn")` registered
before `(B, Substring, "turn on")`. -/
def precedenceRegistry : Registry :=
  [("turn", (handlerA, MatchType.SUBSTRING)),
   ("turn on", (handlerB, MatchType.SUBSTRING))]

/-- A two-record history whose action ids are both the registered key
`"play music"`; the first record's args make the replayed call raise
`TypeError` (an unexpected keyword argument). -/
def cexHistory : List CommandHistory :=
  [{ action := "play music", timestamp := "2024-01-01 00:00:00",
     args := [("x", "y")] },
   { action := "play music", timestamp := "2024-01-01 00:00:01", args := [] }]

/-- A two-record history whose replayed calls both succeed. -/
def roundtripHistory : List CommandHistory :=
  [{ action := "play music", timestamp := "2024-01-01 00:00:00", args := [] },
   { action := rect_pattern, timestamp := "2024-01-01 00:00:01",
     args := [("width", "10"), ("height", "20"), ("position", "0,0")] }]

/-- A saved record whose action id is a registry key and whose call succeeds. -/
def knownRecord : SavedRecord :=
  { action := "play music", timestamp := "2024-01-01 00:00:02", args := [] }

/-- A saved record whose action id is absent from `_action_registry`. -/
def unknownRecord : SavedRecord :=
  { action := "do something unknown", timestamp := "2024-01-01 00:00:03",
    args := [] }

/-- Looking up the key just stored by `dictInsert` yields the stored value,
whatever the dict held before. -/
theorem dictLookup_dictInsert (k : String) (v : α) (d : List (String × α)) :
    dictLookup (dictInsert k v d) k = some v := by
  induction d with
  | nil => simp [dictInsert, dictLookup]
  | cons e rest ih =>
    obtain ⟨k0, v0⟩ := e
    by_cases h : k0 = k
    · simp [dictInsert, dictLookup, h]
    · simp [dictInsert, dictLookup, h, ih]

/-- Claim C1 (code evaluated at the failing input): the `DYNAMIC` branch of
`is_match` is unhandled and rejects the rectangle pattern on the very
candidate the spec's round-trip names, so dispatching that candidate against
the module registry falls through every entry and returns the sentinel — the
`make_rectangle` handler is never invoked and no captures are produced. -/
theorem dynamic_dispatch_never_fires :
    is_match rect_candidate rect_pattern MatchType.DYNAMIC = false ∧
    perform_action _action_registry rect_candidate =
      Except.ok "Command not recognized" :=
  ⟨rfl, by decide⟩

/-- Claim C2 (code evaluated at the failing input): `perform_action` never
writes `self.history` — for every instance and candidate the history after
dispatch is the history before — and in particular dispatching the spec's
Dynamic candidate on a fresh instance leaves the history empty (length 0,
not 1) while returning the sentinel. -/
theorem dispatch_leaves_history_unchanged :
    (∀ (self : VoiceInstance) (command : String),
        (performActionMethod self command).2.history = self.history) ∧
    (performActionMethod VoiceCommandMixin.init rect_candidate).2.history = [] ∧
    (performActionMethod VoiceCommandMixin.init rect_candidate).1 =
      Except.ok "Command not recognized" :=
  ⟨fun _ _ => rfl, rfl, by decide⟩

/-- Claim C3: dispatch walks the registry in order and fires the handler of
the first entry whose matcher succeeds, so whenever two entries both match,
the earlier-registered one's handler is the one invoked (every entry before
it failing to match). -/
theorem first_match_wins (pre post : Registry) (pattern : String)
    (func : PyFunc) (mt : MatchType) (command : String)
    (hpre : ∀ e ∈ pre, is_match command e.1 e.2.2 = false)
    (hm : is_match command pattern mt = true) :
    perform_action (pre ++ (pattern, (func, mt)) :: post) command = func [] := by
  revert hpre
  induction pre with
  | nil => intro _; simp [perform_action, hm]
  | cons e rest ih =>
    intro hpre
    obtain ⟨p0, f0, mt0⟩ := e
    have h0 : is_match command p0 mt0 = false :=
      hpre (p0, (f0, mt0)) (List.mem_cons_self _ _)
    have htail := ih fun x hx => hpre x (List.mem_cons_of_mem _ hx)
    simpa [perform_action, h0] using htail

/-- Claim C3 witness: in the registry `[(A, Substring, "turn"),
(B, Substring, "turn on")]` both matchers succeed on
`"turn on the light"`, and dispatch returns A's response, not B's. -/
theorem first_match_wins_example :
    is_match "turn on the light" "turn" MatchType.SUBSTRING = true ∧
    is_match "turn on the light" "turn on" MatchType.SUBSTRING = true ∧
    perform_action precedenceRegistry "turn on the light" =
      Except.ok "handler A" :=
  ⟨by decide, by decide,
    (first_match_wins [] [("turn on", (handlerB, MatchType.SUBSTRING))] "turn"
      handlerA MatchType.SUBSTRING "turn on the light"
      (by intro e he; cases he) (by decide)).trans rfl⟩

/-- Claim C4 counterexample: a two-record history whose action ids are both
registered; replaying its serialization makes only one call (the first call
raises `TypeError`, aborting the loop), not one call per record. -/
theorem replay_aborts_on_raising_call :
    (dictLookup _action_registry "play music").isSome = true ∧
    (save_history cexHistory).length = 2 ∧
    (load_and_replay_history _action_registry (save_history cexHistory)).1.length
      = 1 ∧
    (load_and_replay_history _action_registry
        (save_history cexHistory)).2.isSome = true := by
  refine ⟨rfl, rfl, ?_, ?_⟩ <;> decide

/-- Claim C4 as amended: for a history all of whose action ids resolve in the
registry and whose handler calls all succeed on the recorded args, replaying
the saved file aborts nowhere and makes exactly one call per record, in
record order, each passing the corresponding record's args. -/
theorem save_replay_roundtrip (registry : Registry)
    (history : List CommandHistory)
    (h : ∀ c ∈ history, ∃ f mt r,
      dictLookup registry c.action = some (f, mt) ∧ f c.args = Except.ok r) :
    (load_and_replay_history registry (save_history history)).2 = none ∧
    (load_and_replay_history registry (save_history history)).1.map
        (fun call => (call.1, call.2.1)) =
      history.map fun c => (c.action, c.args) := by
  revert h
  induction history with
  | nil => intro _; simp [save_history, load_and_replay_history]
  | cons c rest ih =>
    intro h
    obtain ⟨f, mt, r, hf, hr⟩ := h c (List.mem_cons_self _ _)
    have ihr := ih fun x hx => h x (List.mem_cons_of_mem _ hx)
    simp [save_history, load_and_replay_history, hf, hr] at ihr ⊢
    exact ⟨ihr.1, ihr.2⟩

/-- Claim C4 witness: a concrete two-record history (one `play music` record,
one rectangle record with width/height/position args) replays with no abort
and with the original keys and args, in order. -/
theorem save_replay_roundtrip_example :
    (load_and_replay_history _action_registry
        (save_history roundtripHistory)).2 = none ∧
    (load_and_replay_history _action_registry
        (save_history roundtripHistory)).1.map
        (fun call => (call.1, call.2.1)) =
      roundtripHistory.map fun c => (c.action, c.args) :=
  save_replay_roundtrip _action_registry roundtripHistory (by
    intro c hc
    simp [roundtripHistory] at hc
    rcases hc with h | h <;> subst h
    · exact ⟨play_music, MatchType.STARTS_WITH, "Playing music", rfl, rfl⟩
    · exact ⟨make_rectangle, MatchType.DYNAMIC,
        "Making rectangle of width 10, height 20 at 0,0", rfl, rfl⟩)

/-- Claim C5 counterexample: at pattern `"on"`, candidate `"on"`, both
canonical meanings (substring containment, exact equality) say the `Static`
matcher succeeds, yet `is_match` returns `false` — so `Static` has neither
canonical meaning. -/
theorem static_has_neither_meaning :
    is_match "on" "on" MatchType.STATIC = false ∧
    strIn "on" "on" = true ∧
    (("on" : String) == "on") = true := by
  refine ⟨rfl, ?_, ?_⟩ <;> decide

/-- Claim C5 as amended: the `STATIC` case is unhandled in `is_match`, so the
`Static` matcher fails on every pattern and candidate. -/
theorem static_always_fails (pattern command : String) :
    is_match command pattern MatchType.STATIC = false := rfl

/-- Claim C6: when no registry entry's matcher accepts the candidate,
dispatch returns exactly the sentinel string. -/
theorem unmatched_returns_sentinel (registry : Registry) (command : String)
    (h : ∀ e ∈ registry, is_match command e.1 e.2.2 = false) :
    perform_action registry command = Except.ok "Command not recognized" := by
  revert h
  induction registry with
  | nil => intro _; rfl
  | cons e rest ih =>
    intro h
    obtain ⟨p0, f0, mt0⟩ := e
    have h0 : is_match command p0 mt0 = false :=
      h (p0, (f0, mt0)) (List.mem_cons_self _ _)
    have htail := ih fun x hx => h x (List.mem_cons_of_mem _ hx)
    simpa [perform_action, h0] using htail

/-- Claim C6 witness: `"do something unknown"` matches no entry of the module
registry and dispatch returns exactly the sentinel. -/
theorem unmatched_returns_sentinel_example :
    perform_action _action_registry "do something unknown" =
      Except.ok "Command not recognized" :=
  unmatched_returns_sentinel _action_registry "do something unknown" (by decide)

/-- Claim C7: the `AllKeywords` matcher succeeds exactly when every
whitespace-delimited token of the pattern occurs somewhere in the candidate;
in particular `"turn on light"` matches `"please turn the light on now"` but
not `"turn the light"` (missing `"on"`). -/
theorem all_keywords_token_containment :
    (∀ (pattern command : String),
        is_match command pattern MatchType.ALL_KEYWORDS = true ↔
          ∀ w ∈ pySplit pattern, strIn w command = true) ∧
    is_match "please turn the light on now" "turn on light"
      MatchType.ALL_KEYWORDS = true ∧
    is_match "turn the light" "turn on light" MatchType.ALL_KEYWORDS = false := by
  refine ⟨?_, by decide, by decide⟩
  intro pattern command
  show ((pySplit pattern).all fun word => strIn word command) = true ↔ _
  exact List.all_eq_true

/-- Claim C7 witness: the general equivalence applied at the spec's concrete
pattern and candidate. -/
theorem all_keywords_token_containment_example :
    is_match "please turn the light on now" "turn on light"
      MatchType.ALL_KEYWORDS = true :=
  (all_keywords_token_containment.1 "turn on light"
    "please turn the light on now").mpr (by decide)

/-- Claim C8 counterexample: the pattern `"("` does not compile as a regular
expression (Python's `re.compile` rejects it: missing closing parenthesis),
yet registering it under `Dynamic` neither fails nor skips — the entry is
stored and retrievable. -/
theorem register_accepts_malformed_pattern :
    dictLookup (register_action "(" MatchType.DYNAMIC make_rectangle []) "("
      = some (make_rectangle, MatchType.DYNAMIC) := rfl

/-- Claim C8 as amended: a `Dynamic` pattern is never compiled at all —
registration stores any pattern string unconditionally, and dispatch never
compiles a `Dynamic` pattern because the `DYNAMIC` branch of `is_match` is
unhandled and always fails, so no pattern-compilation error can arise from a
`Dynamic` entry at either time. -/
theorem pattern_never_compiled :
    (∀ (pattern : String) (mt : MatchType) (func : PyFunc)
        (registry : Registry),
        dictLookup (register_action pattern mt func registry) pattern =
          some (func, mt)) ∧
    (∀ (pattern command : String),
        is_match command pattern MatchType.DYNAMIC = false) :=
  ⟨fun pattern mt func registry =>
      dictLookup_dictInsert pattern (func, mt) registry,
    fun _ _ => rfl⟩

/-- Claim C9: replay aborts at the first saved record whose action id is
absent from the registry — the records strictly before it (all resolvable,
their calls succeeding) are the only calls made, and the failure surfaces as
the `KeyError` for that id. -/
theorem replay_aborts_at_unknown_action (registry : Registry)
    (pre : List SavedRecord) (r : SavedRecord) (post : List SavedRecord)
    (hpre : ∀ c ∈ pre, ∃ f mt res,
      dictLookup registry c.action = some (f, mt) ∧ f c.args = Except.ok res)
    (hr : dictLookup registry r.action = none) :
    (load_and_replay_history registry (pre ++ r :: post)).2 =
        some ("KeyError: " ++ r.action) ∧
    (load_and_replay_history registry (pre ++ r :: post)).1.map
        (fun call => (call.1, call.2.1)) =
      pre.map fun c => (c.action, c.args) := by
  revert hpre
  induction pre with
  | nil => intro _; simp [load_and_replay_history, hr]
  | cons c rest ih =>
    intro hpre
    obtain ⟨f, mt, res, hf, hres⟩ := hpre c (List.mem_cons_self _ _)
    have ihr := ih fun x hx => hpre x (List.mem_cons_of_mem _ hx)
    simp [load_and_replay_history, hf, hres] at ihr ⊢
    exact ⟨ihr.1, ihr.2⟩

/-- Claim C9 witness: a file with a resolvable `play music` record, then a
record naming an unregistered action, then another resolvable record: replay
calls only the first record's handler and surfaces the `KeyError`; the record
after the unknown one is never replayed. -/
theorem replay_aborts_at_unknown_action_example :
    (load_and_replay_history _action_registry
        ([knownRecord] ++ unknownRecord :: [knownRecord])).2 =
      some ("KeyError: " ++ unknownRecord.action) ∧
    (load_and_replay_history _action_registry
        ([knownRecord] ++ unknownRecord :: [knownRecord])).1.map
        (fun call => (call.1, call.2.1)) =
      [knownRecord].map fun c => (c.action, c.args) :=
  replay_aborts_at_unknown_action _action_registry [knownRecord] unknownRecord
    [knownRecord]
    (by
      intro c hc
      simp [knownRecord] at hc
      subst hc
      exact ⟨play_music, MatchType.STARTS_WITH, "Playing music", rfl, rfl⟩)
    rfl

/-- Claim C10: `__init__` binds every instance's `action_registry` to the one
module-level registry, so a `PaintAppControl` instance and a `TestControl`
instance hold the same pattern set; in particular the `PaintAppControl`
instance dispatches both patterns registered by `TestControl`'s decorators,
and all three registered patterns are present in its registry. -/
theorem registry_shared_across_instances :
    PaintAppControl.new.action_registry = _action_registry ∧
    TestControl.new.action_registry = PaintAppControl.new.action_registry ∧
    (dictLookup PaintAppControl.new.action_registry "turn on the light").isSome
      = true ∧
    (dictLookup PaintAppControl.new.action_registry "play music").isSome
      = true ∧
    (dictLookup PaintAppControl.new.action_registry rect_pattern).isSome
      = true ∧
    perform_action PaintAppControl.new.action_registry "turn on the light" =
      Except.ok "Turning on the light" ∧
    perform_action PaintAppControl.new.action_registry "play music" =
      Except.ok "Playing music" :=
  ⟨rfl, rfl, rfl, rfl, rfl, by decide, by decide⟩
